import Mathlib

/-!
# Okta provider: SWA application resource and policy data source

A shallow embedding of `okta/resource_okta_app_swa.go` and
`okta/data_source_okta_policy.go`.

* `schema.ResourceData` is a record with the stored identifier and the three
  levels the handlers observe: the prior state, the planned (diff) level and
  the values written with `Set`.  `Get` reads the topmost level, `GetChange`
  and `HasChange` compare the prior state with the planned level.
* Go pointers are `Option`; dereferencing `nil` is a runtime panic, modelled
  by the outcome `panicked`, which keeps the world and the calls made so far.
* Go `error` values are their message (`err.Error()`); `nil` is `none`.
* Functions of package `okta` and of the SDKs that are declared outside the
  two files are fields of `Env`, with the signatures of their call sites.
  The metadata `m`, the client obtained from it and the remote service are one
  world value of type `W` that every remote collaborator threads.  The
  collaborators that issue remote requests (`fetchApp`, `handleAppGroupsAndUsers`,
  `handleAppLogo`, `setAppStatus`, `deleteApplication`) read `d` and answer with
  an error value; `appRead` and `syncGroupsAndUsers` also write `d`.  The
  create and update calls of the client decode the response into the
  application they were given, so they answer with the application as well.
* Each handler yields, next to its diagnostics, the final `ResourceData`, the
  final world and the list of collaborator calls it made, in order.
-/

namespace Okta

/-! ## Diagnostics (terraform-plugin-sdk `diag`) -/

/-- Message of a Go `error` value. -/
abbrev GoError := String

/-- Severity of a diagnostic. -/
inductive Severity where
  | Error
  | Warning
deriving DecidableEq, Repr

/-- One entry of `diag.Diagnostics`. -/
structure Diagnostic where
  Severity : Severity
  Summary : String
  Detail : String
deriving DecidableEq, Repr

/-- The Go slice `diag.Diagnostics`; `nil` is the empty list. -/
abbrev Diagnostics := List Diagnostic

/-- The call `diag.Errorf(fmt, err)` where `fmt` is the text `msg` followed by `%v`. -/
def diag.Errorf (msg : String) (err : GoError) : Diagnostics :=
  [{ Severity := Severity.Error, Summary := msg ++ err, Detail := "" }]

/-- The call `diag.FromErr(err)`. -/
def diag.FromErr (err : Option GoError) : Diagnostics :=
  match err with
  | none => []
  | some e => [{ Severity := Severity.Error, Summary := e, Detail := "" }]

/-- The method `Diagnostics.HasError`. -/
def Diagnostics.HasError (ds : Diagnostics) : Bool :=
  ds.any (fun x => decide (x.Severity = Severity.Error))

/-! ## Stored state (terraform-plugin-sdk `schema.ResourceData`) -/

/-- The record `schema.ResourceData`, restricted to string attributes (every
attribute the two files read or write is of `schema.TypeString`). -/
structure ResourceData where
  /-- stored identifier -/
  id : String
  /-- prior state level -/
  state : String → String
  /-- planned level: prior state with the configuration diff applied -/
  diff : String → String
  /-- values written with `Set` during this call -/
  setWriter : String → Option String

/-- The method `d.Id()`. -/
def ResourceData.Id (d : ResourceData) : String := d.id

/-- The method `d.SetId(v)`. -/
def ResourceData.SetId (d : ResourceData) (v : String) : ResourceData :=
  { d with id := v }

/-- The method `d.Get(key).(string)`. -/
def ResourceData.Get (d : ResourceData) (key : String) : String :=
  match d.setWriter key with
  | some v => v
  | none => d.diff key

/-- The method `d.Set(key, value)` on a string attribute. -/
def ResourceData.Set (d : ResourceData) (key : String) (value : String) : ResourceData :=
  { d with setWriter := fun k => if k = key then some value else d.setWriter k }

/-- The method `d.GetChange(key)`: the old and the new value. -/
def ResourceData.GetChange (d : ResourceData) (key : String) : String × String :=
  (d.state key, d.diff key)

/-- The method `d.HasChange(key)`. -/
def ResourceData.HasChange (d : ResourceData) (key : String) : Bool :=
  let (o, n) := d.GetChange key
  !(decide (o = n))

/-! ## Remote shapes (okta SDK) -/

/-- The `_links` member of an application: decoded JSON, carried as is. -/
structure Links where
  raw : String
deriving DecidableEq, Repr

/-- The struct `okta.SwaApplicationSettingsApplication`. -/
structure SwaApplicationSettingsApplication where
  ButtonField : String
  Checkbox : String
  LoginUrlRegex : String
  PasswordField : String
  RedirectUrl : String
  Url : String
  UsernameField : String
deriving DecidableEq, Repr

/-- The struct `okta.ApplicationSettingsNotes`. -/
structure ApplicationSettingsNotes where
  Admin : Option String
  Enduser : Option String
deriving DecidableEq, Repr

/-- The struct `okta.SwaApplicationSettings` (members used by the handlers). -/
structure SwaApplicationSettings where
  App : Option SwaApplicationSettingsApplication
  Notes : Option ApplicationSettingsNotes
deriving DecidableEq, Repr

/-- The struct `okta.ApplicationVisibility`. -/
structure ApplicationVisibility where
  AutoSubmitToolbar : Option Bool
  HideIOS : Option Bool
  HideWeb : Option Bool
deriving DecidableEq, Repr

/-- The struct `okta.ApplicationAccessibility`. -/
structure ApplicationAccessibility where
  ErrorRedirectUrl : String
  LoginRedirectUrl : String
  SelfService : Option Bool
deriving DecidableEq, Repr

/-- The struct `okta.ApplicationCredentialsUsernameTemplate`. -/
structure ApplicationCredentialsUsernameTemplate where
  PushStatus : String
  Suffix : String
  Template : String
  Type_ : String
deriving DecidableEq, Repr

/-- The struct `okta.SchemeApplicationCredentials` (member used by the handlers). -/
structure SchemeApplicationCredentials where
  UserNameTemplate : Option ApplicationCredentialsUsernameTemplate
deriving DecidableEq, Repr

/-- The struct `okta.SwaApplication`. -/
structure SwaApplication where
  Links : Links
  Accessibility : Option ApplicationAccessibility
  Credentials : Option SchemeApplicationCredentials
  Id : String
  Label : String
  Name : String
  Settings : Option SwaApplicationSettings
  SignOnMode : String
  Status : String
  Visibility : Option ApplicationVisibility
deriving DecidableEq, Repr

/-- The struct `sdk.Policy` (members used by the data source). -/
structure Policy where
  Id : String
  Name : String
  Status : String
  Type_ : String
deriving DecidableEq, Repr

/-! ## Collaborators -/

/-- A call of a collaborator that may reach the remote service. -/
inductive Call where
  | CreateApplication (activate : Bool)
  | UpdateApplication (id : String)
  | fetchApp (id : String)
  | syncGroupsAndUsers (id : String)
  | handleAppGroupsAndUsers (id : String)
  | handleAppLogo (id : String)
  | setAppStatus (status : String)
  | deleteApplication (id : String)
  | findPolicyByNameAndType (name : String) (type : String)
deriving DecidableEq, Repr

/-- Whether the call is a logo upload. -/
def Call.isHandleAppLogo : Call → Bool
  | Call.handleAppLogo _ => true
  | _ => false

/-- Whether the call is a remote delete. -/
def Call.isDeleteApplication : Call → Bool
  | Call.deleteApplication _ => true
  | _ => false

/-- Whether the call is the group and user sync of the read path. -/
def Call.isSyncGroupsAndUsers : Call → Bool
  | Call.syncGroupsAndUsers _ => true
  | _ => false

/-- Whether the call is the read by identifier. -/
def Call.isFetchApp : Call → Bool
  | Call.fetchApp _ => true
  | _ => false

/-- The functions, constants and constructors the two files use and do not
declare.  `W` is the world: metadata, client and remote service. -/
structure Env (W : Type) where
  /-- Go okta.NewSwaApplication() -/
  NewSwaApplication : SwaApplication
  /-- constant `statusActive` -/
  statusActive : String
  /-- constant `appSignOnPolicy` -/
  appSignOnPolicy : String
  /-- Go resourceOIEOnlyFeatureError(name) -/
  resourceOIEOnlyFeatureError : String → Diagnostics
  /-- Go isClassicOrg(m) -/
  isClassicOrg : W → Bool
  /-- Go findPolicyByNameAndType(ctx, m, name, type): the policy pointer and the error -/
  findPolicyByNameAndType : W → String → String → Option Policy × Option GoError × W
  /-- Go buildAppNotes(d) -/
  buildAppNotes : ResourceData → Option ApplicationSettingsNotes
  /-- Go buildAppVisibility(d) -/
  buildAppVisibility : ResourceData → Option ApplicationVisibility
  /-- Go buildAppAccessibility(d) -/
  buildAppAccessibility : ResourceData → Option ApplicationAccessibility
  /-- Go buildUserNameTemplate(d) -/
  buildUserNameTemplate : ResourceData → Option ApplicationCredentialsUsernameTemplate
  /-- Go linksValue(links, keys...) -/
  linksValue : Links → String → String → String
  /-- Go appRead(d, name, status, signOn, label, accy, vis, notes): writes `d` -/
  appRead : ResourceData → String → String → String → String →
    Option ApplicationAccessibility → Option ApplicationVisibility →
    Option ApplicationSettingsNotes → ResourceData
  /-- Go fetchApp(ctx, d, m, app): fills `app` -/
  fetchApp : ResourceData → W → SwaApplication → Option GoError × SwaApplication × W
  /-- Go syncGroupsAndUsers(ctx, id, d, m): writes `d` -/
  syncGroupsAndUsers : String → ResourceData → W → Option GoError × ResourceData × W
  /-- Go handleAppGroupsAndUsers(ctx, id, d, m) -/
  handleAppGroupsAndUsers : String → ResourceData → W → Option GoError × W
  /-- Go handleAppLogo(ctx, d, m, appID, links) -/
  handleAppLogo : ResourceData → W → String → Links → Option GoError × W
  /-- Go setAppStatus(ctx, d, client, status) -/
  setAppStatus : ResourceData → W → String → Option GoError × W
  /-- Go deleteApplication(ctx, d, m) -/
  deleteApplication : ResourceData → W → Option GoError × W
  /-- Go client.Application.CreateApplication(ctx, app, params): fills `app` -/
  CreateApplication : SwaApplication → Bool → W → Option GoError × SwaApplication × W
  /-- Go client.Application.UpdateApplication(ctx, id, app): fills `app` -/
  UpdateApplication : String → SwaApplication → W → Option GoError × SwaApplication × W

/-- What a handler leaves behind. -/
structure Result (W : Type) where
  diags : Diagnostics
  d : ResourceData
  w : W
  calls : List Call

/-- How a handler ends: it returns, or it dereferences a nil pointer. -/
inductive Outcome (W : Type) where
  | returned (r : Result W)
  | panicked (w : W) (calls : List Call)

/-- The collaborator calls of a run, in order. -/
def Outcome.calls {W : Type} : Outcome W → List Call
  | Outcome.returned r => r.calls
  | Outcome.panicked _ cs => cs

/-- The run continued after the calls `cs` were already made. -/
def Outcome.after {W : Type} (cs : List Call) : Outcome W → Outcome W
  | Outcome.returned r => Outcome.returned { r with calls := cs ++ r.calls }
  | Outcome.panicked w c => Outcome.panicked w (cs ++ c)

/-! ## `resource_okta_app_swa.go` -/

variable {W : Type}

/-- Function `buildAppSwa`. -/
def buildAppSwa (env : Env W) (d : ResourceData) : SwaApplication :=
  let app := env.NewSwaApplication
  let app := { app with Label := d.Get "label" }
  let name := d.Get "preconfigured_app"
  let app := if name ≠ "" then { app with Name := name, SignOnMode := "AUTO_LOGIN" } else app
  let app := { app with
    Settings := some {
      App := some {
        ButtonField := d.Get "button_field"
        UsernameField := d.Get "username_field"
        PasswordField := d.Get "password_field"
        Url := d.Get "url"
        LoginUrlRegex := d.Get "url_regex"
        RedirectUrl := d.Get "redirect_url"
        Checkbox := d.Get "checkbox" }
      Notes := env.buildAppNotes d } }
  let app := { app with Visibility := env.buildAppVisibility d }
  let app := { app with Accessibility := env.buildAppAccessibility d }
  let app := { app with
    Credentials := some { UserNameTemplate := env.buildUserNameTemplate d } }
  app

/-- The seven assignments of `resourceAppSwaRead` that copy `app.Settings.App`
into the state (the field mapping of the login form attributes); `none` when
`app.Settings` or `app.Settings.App` is nil. -/
def readSwaSettingsFields (d : ResourceData) (app : SwaApplication) : Option ResourceData :=
  match app.Settings with
  | none => none
  | some settings =>
    match settings.App with
    | none => none
    | some a =>
      let d := d.Set "button_field" a.ButtonField
      let d := d.Set "password_field" a.PasswordField
      let d := d.Set "username_field" a.UsernameField
      let d := d.Set "url" a.Url
      let d := d.Set "url_regex" a.LoginUrlRegex
      let d := d.Set "checkbox" a.Checkbox
      let d := d.Set "redirect_url" a.RedirectUrl
      some d

/-- The four assignments of `resourceAppSwaRead` that copy
`app.Credentials.UserNameTemplate` into the state; `none` when `app.Credentials`
or `app.Credentials.UserNameTemplate` is nil. -/
def readUserNameTemplateFields (d : ResourceData) (app : SwaApplication) : Option ResourceData :=
  match app.Credentials with
  | none => none
  | some creds =>
    match creds.UserNameTemplate with
    | none => none
    | some t =>
      let d := d.Set "user_name_template" t.Template
      let d := d.Set "user_name_template_type" t.Type_
      let d := d.Set "user_name_template_suffix" t.Suffix
      let d := d.Set "user_name_template_push_status" t.PushStatus
      some d

/-- Function `resourceAppSwaRead`. -/
def resourceAppSwaRead (env : Env W) (d : ResourceData) (w : W) : Outcome W :=
  let app := env.NewSwaApplication
  match env.fetchApp d w app with
  | (some err, _, w1) =>
    Outcome.returned
      { diags := diag.Errorf "failed to get SWA application: " err, d := d, w := w1,
        calls := [Call.fetchApp d.Id] }
  | (none, app, w1) =>
    if app.Id = "" then
      Outcome.returned { diags := [], d := d.SetId "", w := w1, calls := [Call.fetchApp d.Id] }
    else
      match readSwaSettingsFields d app with
      | none => Outcome.panicked w1 [Call.fetchApp d.Id]
      | some d1 =>
        match readUserNameTemplateFields d1 app with
        | none => Outcome.panicked w1 [Call.fetchApp d.Id]
        | some d2 =>
          let d3 := d2.Set "logo_url" (env.linksValue app.Links "logo" "href")
          match app.Settings with
          | none => Outcome.panicked w1 [Call.fetchApp d.Id]
          | some settings =>
            let d4 := env.appRead d3 app.Name app.Status app.SignOnMode app.Label
              app.Accessibility app.Visibility settings.Notes
            match env.syncGroupsAndUsers app.Id d4 w1 with
            | (some err, d5, w2) =>
              Outcome.returned
                { diags := diag.Errorf "failed to sync groups and users for SWA application: " err,
                  d := d5, w := w2,
                  calls := [Call.fetchApp d.Id, Call.syncGroupsAndUsers app.Id] }
            | (none, d5, w2) =>
              Outcome.returned
                { diags := [], d := d5, w := w2,
                  calls := [Call.fetchApp d.Id, Call.syncGroupsAndUsers app.Id] }

/-- Function `resourceAppSwaCreate`. -/
def resourceAppSwaCreate (env : Env W) (d : ResourceData) (w : W) : Outcome W :=
  let app := buildAppSwa env d
  let activate := decide (d.Get "status" = env.statusActive)
  match env.CreateApplication app activate w with
  | (some err, _, w1) =>
    Outcome.returned
      { diags := diag.Errorf "failed to create SWA application: " err, d := d, w := w1,
        calls := [Call.CreateApplication activate] }
  | (none, app, w1) =>
    let d := d.SetId app.Id
    match env.handleAppGroupsAndUsers app.Id d w1 with
    | (some err, w2) =>
      Outcome.returned
        { diags := diag.Errorf "failed to handle groups and users for SWA application: " err,
          d := d, w := w2,
          calls := [Call.CreateApplication activate, Call.handleAppGroupsAndUsers app.Id] }
    | (none, w2) =>
      match env.handleAppLogo d w2 app.Id app.Links with
      | (some err, w3) =>
        Outcome.returned
          { diags := diag.Errorf "failed to upload logo for SWA application: " err,
            d := d, w := w3,
            calls := [Call.CreateApplication activate, Call.handleAppGroupsAndUsers app.Id,
                      Call.handleAppLogo app.Id] }
      | (none, w3) =>
        (resourceAppSwaRead env d w3).after
          [Call.CreateApplication activate, Call.handleAppGroupsAndUsers app.Id,
           Call.handleAppLogo app.Id]

/-- Function `resourceAppSwaUpdate`. -/
def resourceAppSwaUpdate (env : Env W) (d : ResourceData) (w : W) : Outcome W :=
  let app := buildAppSwa env d
  match env.UpdateApplication d.Id app w with
  | (some err, _, w1) =>
    Outcome.returned
      { diags := diag.Errorf "failed to update SWA application: " err, d := d, w := w1,
        calls := [Call.UpdateApplication d.Id] }
  | (none, app, w1) =>
    match env.setAppStatus d w1 app.Status with
    | (some err, w2) =>
      Outcome.returned
        { diags := diag.Errorf "failed to set SWA application status: " err, d := d, w := w2,
          calls := [Call.UpdateApplication d.Id, Call.setAppStatus app.Status] }
    | (none, w2) =>
      match env.handleAppGroupsAndUsers app.Id d w2 with
      | (some err, w3) =>
        Outcome.returned
          { diags := diag.Errorf "failed to handle groups and users for SWA application: " err,
            d := d, w := w3,
            calls := [Call.UpdateApplication d.Id, Call.setAppStatus app.Status,
                      Call.handleAppGroupsAndUsers app.Id] }
      | (none, w3) =>
        if d.HasChange "logo" then
          match env.handleAppLogo d w3 app.Id app.Links with
          | (some err, w4) =>
            let (o, _) := d.GetChange "logo"
            let d1 := d.Set "logo" o
            Outcome.returned
              { diags := diag.Errorf "failed to upload logo for SWA application: " err,
                d := d1, w := w4,
                calls := [Call.UpdateApplication d.Id, Call.setAppStatus app.Status,
                          Call.handleAppGroupsAndUsers app.Id, Call.handleAppLogo app.Id] }
          | (none, w4) =>
            (resourceAppSwaRead env d w4).after
              [Call.UpdateApplication d.Id, Call.setAppStatus app.Status,
               Call.handleAppGroupsAndUsers app.Id, Call.handleAppLogo app.Id]
        else
          (resourceAppSwaRead env d w3).after
            [Call.UpdateApplication d.Id, Call.setAppStatus app.Status,
             Call.handleAppGroupsAndUsers app.Id]

/-- Function `resourceAppSwaDelete`. -/
def resourceAppSwaDelete (env : Env W) (d : ResourceData) (w : W) : Outcome W :=
  match env.deleteApplication d w with
  | (some err, w1) =>
    Outcome.returned
      { diags := diag.Errorf "failed to delete SWA application: " err, d := d, w := w1,
        calls := [Call.deleteApplication d.Id] }
  | (none, w1) =>
    Outcome.returned { diags := [], d := d, w := w1, calls := [Call.deleteApplication d.Id] }

/-! ## `data_source_okta_policy.go` -/

/-- Function `dataSourcePolicyRead`. -/
def dataSourcePolicyRead (env : Env W) (d : ResourceData) (w : W) : Outcome W :=
  if env.isClassicOrg w then
    Outcome.returned
      { diags := env.resourceOIEOnlyFeatureError env.appSignOnPolicy, d := d, w := w,
        calls := [] }
  else
    let name := d.Get "name"
    let type := d.Get "type"
    match env.findPolicyByNameAndType w name type with
    | (_, some err, w1) =>
      Outcome.returned
        { diags := diag.FromErr (some err), d := d, w := w1,
          calls := [Call.findPolicyByNameAndType name type] }
    | (none, none, w1) => Outcome.panicked w1 [Call.findPolicyByNameAndType name type]
    | (some policy, none, w1) =>
      let d1 := d.SetId policy.Id
      let d2 := d1.Set "status" policy.Status
      Outcome.returned
        { diags := [], d := d2, w := w1,
          calls := [Call.findPolicyByNameAndType name type] }

/-! ## A scripted remote service, for concrete runs -/

/-- A remote service whose answers are fixed in advance. -/
structure Scripted where
  classic : Bool
  remoteApp : Option SwaApplication
  createdId : String
  groupsError : Option GoError
  logoError : Option GoError
  deleteError : Option GoError
  policies : List Policy
  requests : Nat

/-- One more request was served. -/
def Scripted.bump (w : Scripted) : Scripted :=
  { w with requests := w.requests + 1 }

/-- The policies of the service with the given name and type. -/
def Scripted.lookup (w : Scripted) (name : String) (type : String) : List Policy :=
  w.policies.filter (fun p => decide (p.Name = name) && decide (p.Type_ = type))

/-- Collaborators that answer from a `Scripted` service. -/
def scriptedEnv : Env Scripted where
  NewSwaApplication :=
    { Links := { raw := "" }, Accessibility := none, Credentials := none, Id := "",
      Label := "", Name := "template_swa", Settings := none, SignOnMode := "BROWSER_PLUGIN",
      Status := "", Visibility := none }
  statusActive := "ACTIVE"
  appSignOnPolicy := "App SignOn Policy"
  resourceOIEOnlyFeatureError name :=
    [{ Severity := Severity.Error, Summary := name ++ " is available for OIE orgs only",
       Detail := "" }]
  isClassicOrg w := w.classic
  findPolicyByNameAndType w name type :=
    match w.lookup name type with
    | [] => (none, some "no policies retrieved", w.bump)
    | [p] => (some p, none, w.bump)
    | _ => (none, some "more than one policy retrieved", w.bump)
  buildAppNotes d :=
    some { Admin := some (d.Get "admin_note"), Enduser := some (d.Get "enduser_note") }
  buildAppVisibility _ := some { AutoSubmitToolbar := none, HideIOS := none, HideWeb := none }
  buildAppAccessibility d :=
    some { ErrorRedirectUrl := d.Get "accessibility_error_redirect_url",
           LoginRedirectUrl := d.Get "accessibility_login_redirect_url", SelfService := none }
  buildUserNameTemplate d :=
    some { PushStatus := d.Get "user_name_template_push_status",
           Suffix := d.Get "user_name_template_suffix",
           Template := d.Get "user_name_template",
           Type_ := d.Get "user_name_template_type" }
  linksValue links _ _ := links.raw
  appRead d name status signOn label _ _ _ :=
    (((d.Set "name" name).Set "status" status).Set "sign_on_mode" signOn).Set "label" label
  fetchApp d w app :=
    match w.remoteApp with
    | none => (none, app, w.bump)
    | some a => if a.Id = d.Id then (none, a, w.bump) else (none, app, w.bump)
  syncGroupsAndUsers _ d w := (none, d, w.bump)
  handleAppGroupsAndUsers _ _ w := (w.groupsError, w.bump)
  handleAppLogo _ w _ _ := (w.logoError, w.bump)
  setAppStatus _ w _ := (none, w.bump)
  deleteApplication _ w := (w.deleteError, w.bump)
  CreateApplication app activate w :=
    let a := { app with Id := w.createdId, Status := if activate then "ACTIVE" else "INACTIVE" }
    (none, a, { w.bump with remoteApp := some a })
  UpdateApplication id app w :=
    let a := { app with Id := id, Status := "ACTIVE" }
    (none, a, { w.bump with remoteApp := some a })

/-- A service of an OIE org without applications or policies, all calls succeeding. -/
def emptyService : Scripted :=
  { classic := false, remoteApp := none, createdId := "0oa1", groupsError := none,
    logoError := none, deleteError := none, policies := [], requests := 0 }

/-- A declared SWA application whose logo differs from the prior state. -/
def loginApp : ResourceData :=
  { id := "0oa1"
    state := fun k => if k = "logo" then "old.png" else ""
    diff := fun k =>
      if k = "logo" then "new.png"
      else if k = "label" then "Okta Login"
      else if k = "username_field" then "user"
      else if k = "password_field" then "pass"
      else if k = "url" then "https://example.com/login"
      else if k = "status" then "ACTIVE"
      else ""
    setWriter := fun _ => none }

/-- The declared application of `loginApp` with the prior logo equal to the declared one. -/
def loginAppSameLogo : ResourceData :=
  { loginApp with state := fun k => if k = "logo" then "new.png" else "" }

/-- The declared application of `loginApp` with the status attribute set to INACTIVE. -/
def loginAppInactive : ResourceData :=
  { loginApp with diff := fun k => if k = "status" then "INACTIVE" else loginApp.diff k }

/-- A policy data source asking for the access policy named "Default Policy". -/
def policyQuery : ResourceData :=
  { id := ""
    state := fun _ => ""
    diff := fun k =>
      if k = "name" then "Default Policy"
      else if k = "type" then "ACCESS_POLICY"
      else ""
    setWriter := fun _ => none }

/-- The policy the scripted service holds in `policyService`. -/
def defaultPolicy : Policy :=
  { Id := "00p1", Name := "Default Policy", Status := "ACTIVE", Type_ := "ACCESS_POLICY" }

/-- A service of an OIE org holding `defaultPolicy` only. -/
def policyService : Scripted :=
  { emptyService with policies := [defaultPolicy] }

/-- A service that stored the payload of `loginApp` unchanged under the Id "0oa1". -/
def storedService : Scripted :=
  { emptyService with
    remoteApp := some { buildAppSwa scriptedEnv loginApp with Id := "0oa1" } }

/-- The seven login form attributes of the SWA schema that are read and written. -/
def swaFields : List String :=
  ["button_field", "password_field", "username_field", "url", "url_regex", "checkbox",
   "redirect_url"]

/-! ## Facts about the stored state -/

@[simp]
theorem ResourceData.Get_Set_same (d : ResourceData) (k v : String) :
    (d.Set k v).Get k = v := by
  simp [ResourceData.Get, ResourceData.Set]

@[simp]
theorem ResourceData.Get_Set_other (d : ResourceData) (k k1 v : String) (h : k1 ≠ k) :
    (d.Set k v).Get k1 = d.Get k1 := by
  simp [ResourceData.Get, ResourceData.Set, h]

@[simp]
theorem ResourceData.Get_SetId (d : ResourceData) (v k : String) :
    (d.SetId v).Get k = d.Get k := rfl

@[simp]
theorem ResourceData.Id_SetId (d : ResourceData) (v : String) : (d.SetId v).Id = v := rfl

@[simp]
theorem ResourceData.Id_Set (d : ResourceData) (k v : String) : (d.Set k v).Id = d.Id := rfl

/-! ## Read -/

/-- C1: when `fetchApp` reports no error and leaves the application's Id
empty, `resourceAppSwaRead` returns nil diagnostics, the stored identifier is
the empty string, every level of the state is otherwise as it was, and the
only collaborator call is the fetch (in particular `syncGroupsAndUsers` is not
called). -/
theorem resourceAppSwaRead_absent_clears_id (env : Env W) (d : ResourceData) (w : W)
    (app : SwaApplication) (w1 : W)
    (hfetch : env.fetchApp d w env.NewSwaApplication = (none, app, w1))
    (hid : app.Id = "") :
    ∃ r, resourceAppSwaRead env d w = Outcome.returned r ∧
      r.diags = [] ∧
      r.d.Id = "" ∧
      r.d.state = d.state ∧ r.d.diff = d.diff ∧ r.d.setWriter = d.setWriter ∧
      (∀ k, r.d.Get k = d.Get k) ∧
      r.calls = [Call.fetchApp d.Id] ∧
      r.calls.any Call.isSyncGroupsAndUsers = false ∧
      r.w = w1 := by
  refine ⟨{ diags := [], d := d.SetId "", w := w1, calls := [Call.fetchApp d.Id] }, ?_, ?_⟩
  · simp [resourceAppSwaRead, hfetch, hid]
  · simp [ResourceData.SetId, ResourceData.Id, ResourceData.Get, Call.isSyncGroupsAndUsers]

/-- Concrete run for C1: the scripted service holds no application. -/
theorem resourceAppSwaRead_absent_clears_id_witness :
    ∃ r, resourceAppSwaRead scriptedEnv loginApp emptyService = Outcome.returned r ∧
      r.diags = [] ∧
      r.d.Id = "" ∧
      r.d.state = loginApp.state ∧ r.d.diff = loginApp.diff ∧
      r.d.setWriter = loginApp.setWriter ∧
      (∀ k, r.d.Get k = loginApp.Get k) ∧
      r.calls = [Call.fetchApp loginApp.Id] ∧
      r.calls.any Call.isSyncGroupsAndUsers = false ∧
      r.w = emptyService.bump :=
  resourceAppSwaRead_absent_clears_id scriptedEnv loginApp emptyService
    scriptedEnv.NewSwaApplication emptyService.bump rfl rfl

/-! ## Update -/

/-- C2: when the remote update, the status reconciliation and the group and
user sync succeed, the logo attribute has changed and `handleAppLogo` fails,
`resourceAppSwaUpdate` returns the single error diagnostic "failed to upload
logo for SWA application: " followed by the error, the logo attribute of the
returned state is the old value of `GetChange("logo")` and not the new one,
and no read-back takes place (the calls end with the logo upload, none of
them is `fetchApp`). -/
theorem resourceAppSwaUpdate_logo_rollback (env : Env W) (d : ResourceData) (w : W)
    (app : SwaApplication) (w1 w2 w3 w4 : W) (err : GoError)
    (hupd : env.UpdateApplication d.Id (buildAppSwa env d) w = (none, app, w1))
    (hstatus : env.setAppStatus d w1 app.Status = (none, w2))
    (hgroups : env.handleAppGroupsAndUsers app.Id d w2 = (none, w3))
    (hchange : d.HasChange "logo" = true)
    (hlogo : env.handleAppLogo d w3 app.Id app.Links = (some err, w4)) :
    ∃ r, resourceAppSwaUpdate env d w = Outcome.returned r ∧
      r.diags = [{ Severity := Severity.Error,
                   Summary := "failed to upload logo for SWA application: " ++ err,
                   Detail := "" }] ∧
      r.diags.HasError = true ∧
      r.d.Get "logo" = (d.GetChange "logo").1 ∧
      r.d.Get "logo" ≠ (d.GetChange "logo").2 ∧
      (∀ k, k ≠ "logo" → r.d.Get k = d.Get k) ∧
      r.d.Id = d.Id ∧
      r.calls = [Call.UpdateApplication d.Id, Call.setAppStatus app.Status,
                 Call.handleAppGroupsAndUsers app.Id, Call.handleAppLogo app.Id] ∧
      r.calls.any Call.isFetchApp = false ∧
      r.w = w4 := by
  refine ⟨{ diags := diag.Errorf "failed to upload logo for SWA application: " err,
            d := d.Set "logo" (d.GetChange "logo").1, w := w4,
            calls := [Call.UpdateApplication d.Id, Call.setAppStatus app.Status,
                      Call.handleAppGroupsAndUsers app.Id, Call.handleAppLogo app.Id] },
          ?_, rfl, rfl, ?_, ?_, ?_, rfl, rfl, rfl, rfl⟩
  · simp [resourceAppSwaUpdate, hupd, hstatus, hgroups, hchange, hlogo, ResourceData.GetChange]
  · simp
  · have h : d.state "logo" ≠ d.diff "logo" := by
      simpa [ResourceData.HasChange, ResourceData.GetChange] using hchange
    simpa [ResourceData.GetChange] using h
  · intro k hk
    simp [hk]

/-- Concrete run for C2: the logo upload of the scripted service fails. -/
theorem resourceAppSwaUpdate_logo_rollback_witness :
    ∃ r, resourceAppSwaUpdate scriptedEnv loginApp
        { emptyService with logoError := some "upload refused" } = Outcome.returned r ∧
      r.diags = [{ Severity := Severity.Error,
                   Summary := "failed to upload logo for SWA application: " ++ "upload refused",
                   Detail := "" }] ∧
      r.diags.HasError = true ∧
      r.d.Get "logo" = (loginApp.GetChange "logo").1 ∧
      r.d.Get "logo" ≠ (loginApp.GetChange "logo").2 ∧
      (∀ k, k ≠ "logo" → r.d.Get k = loginApp.Get k) ∧
      r.d.Id = loginApp.Id ∧
      r.calls = [Call.UpdateApplication loginApp.Id, Call.setAppStatus "ACTIVE",
                 Call.handleAppGroupsAndUsers "0oa1", Call.handleAppLogo "0oa1"] ∧
      r.calls.any Call.isFetchApp = false ∧
      r.w = { emptyService with
              logoError := some "upload refused"
              remoteApp := some { buildAppSwa scriptedEnv loginApp with
                                  Id := "0oa1", Status := "ACTIVE" }
              requests := 4 } :=
  resourceAppSwaUpdate_logo_rollback scriptedEnv loginApp
    { emptyService with logoError := some "upload refused" }
    { buildAppSwa scriptedEnv loginApp with Id := "0oa1", Status := "ACTIVE" }
    _ _ _ _ "upload refused" rfl rfl rfl (by decide) rfl

/-- The calls of a read-back contain no logo upload. -/
theorem resourceAppSwaRead_no_logo (env : Env W) (d : ResourceData) (w : W) :
    (resourceAppSwaRead env d w).calls.any Call.isHandleAppLogo = false := by
  unfold resourceAppSwaRead
  simp only []
  split
  · simp [Outcome.calls, Call.isHandleAppLogo]
  · split
    · simp [Outcome.calls, Call.isHandleAppLogo]
    · split
      · simp [Outcome.calls, Call.isHandleAppLogo]
      · split
        · simp [Outcome.calls, Call.isHandleAppLogo]
        · split
          · simp [Outcome.calls, Call.isHandleAppLogo]
          · split <;> simp [Outcome.calls, Call.isHandleAppLogo]

/-- The calls of a continued run are the earlier calls followed by its own. -/
theorem Outcome.calls_after (cs : List Call) (o : Outcome W) :
    (o.after cs).calls = cs ++ o.calls := by
  cases o <;> rfl

/-- C9: in every Update run, whatever the collaborators answer and whether or
not the read-back returns, `handleAppLogo` is among the calls exactly when the
remote update, `setAppStatus` and `handleAppGroupsAndUsers` (made in that
order) all succeeded and `HasChange("logo")` holds; it is called at most once,
never when the logo attribute is unchanged, and when it is called it is the
fourth call, after those three.  The outcome is fixed in every case: a failed
earlier step returns its own diagnostic with the state untouched and the world
that step left; with the three steps succeeded and the logo unchanged the run
is the read-back from the world left by `handleAppGroupsAndUsers`, so the
upload is not applied; with the logo changed the run goes through the world
left by `handleAppLogo`, into the rollback diagnostic when the upload fails and
into the read-back from that world when it succeeds. -/
theorem resourceAppSwaUpdate_logo_iff_changed (env : Env W) (d : ResourceData) (w : W)
    (e1 e2 e3 e4 : Option GoError) (app : SwaApplication) (w1 w2 w3 w4 : W)
    (hupd : env.UpdateApplication d.Id (buildAppSwa env d) w = (e1, app, w1))
    (hstatus : env.setAppStatus d w1 app.Status = (e2, w2))
    (hgroups : env.handleAppGroupsAndUsers app.Id d w2 = (e3, w3))
    (hlogo : env.handleAppLogo d w3 app.Id app.Links = (e4, w4)) :
    ((resourceAppSwaUpdate env d w).calls.any Call.isHandleAppLogo = true ↔
      (e1 = none ∧ e2 = none ∧ e3 = none ∧ d.HasChange "logo" = true)) ∧
    (resourceAppSwaUpdate env d w).calls.countP Call.isHandleAppLogo ≤ 1 ∧
    (d.HasChange "logo" = false →
      (resourceAppSwaUpdate env d w).calls.any Call.isHandleAppLogo = false) ∧
    ((resourceAppSwaUpdate env d w).calls.any Call.isHandleAppLogo = true →
      ∃ rest, (resourceAppSwaUpdate env d w).calls =
        [Call.UpdateApplication d.Id, Call.setAppStatus app.Status,
         Call.handleAppGroupsAndUsers app.Id, Call.handleAppLogo app.Id] ++ rest) ∧
    (∀ err, e1 = some err →
      resourceAppSwaUpdate env d w = Outcome.returned
        { diags := [{ Severity := Severity.Error,
                      Summary := "failed to update SWA application: " ++ err,
                      Detail := "" }],
          d := d, w := w1, calls := [Call.UpdateApplication d.Id] }) ∧
    (e1 = none → ∀ err, e2 = some err →
      resourceAppSwaUpdate env d w = Outcome.returned
        { diags := [{ Severity := Severity.Error,
                      Summary := "failed to set SWA application status: " ++ err,
                      Detail := "" }],
          d := d, w := w2,
          calls := [Call.UpdateApplication d.Id, Call.setAppStatus app.Status] }) ∧
    (e1 = none → e2 = none → ∀ err, e3 = some err →
      resourceAppSwaUpdate env d w = Outcome.returned
        { diags := [{ Severity := Severity.Error,
                      Summary := "failed to handle groups and users for SWA application: "
                        ++ err,
                      Detail := "" }],
          d := d, w := w3,
          calls := [Call.UpdateApplication d.Id, Call.setAppStatus app.Status,
                    Call.handleAppGroupsAndUsers app.Id] }) ∧
    (e1 = none → e2 = none → e3 = none → d.HasChange "logo" = false →
      resourceAppSwaUpdate env d w = (resourceAppSwaRead env d w3).after
        [Call.UpdateApplication d.Id, Call.setAppStatus app.Status,
         Call.handleAppGroupsAndUsers app.Id]) ∧
    (e1 = none → e2 = none → e3 = none → d.HasChange "logo" = true → ∀ err, e4 = some err →
      resourceAppSwaUpdate env d w = Outcome.returned
        { diags := [{ Severity := Severity.Error,
                      Summary := "failed to upload logo for SWA application: " ++ err,
                      Detail := "" }],
          d := d.Set "logo" (d.GetChange "logo").1, w := w4,
          calls := [Call.UpdateApplication d.Id, Call.setAppStatus app.Status,
                    Call.handleAppGroupsAndUsers app.Id, Call.handleAppLogo app.Id] }) ∧
    (e1 = none → e2 = none → e3 = none → d.HasChange "logo" = true → e4 = none →
      resourceAppSwaUpdate env d w = (resourceAppSwaRead env d w4).after
        [Call.UpdateApplication d.Id, Call.setAppStatus app.Status,
         Call.handleAppGroupsAndUsers app.Id, Call.handleAppLogo app.Id]) := by
  have hread := resourceAppSwaRead_no_logo env d
  have hcount : ∀ w0, (resourceAppSwaRead env d w0).calls.countP Call.isHandleAppLogo = 0 := by
    intro w0
    rw [List.countP_eq_zero]
    intro c hc hc1
    have := hread w0
    rw [List.any_eq_false] at this
    exact this c hc hc1
  cases e1 with
  | some err1 =>
    simp [resourceAppSwaUpdate, hupd, Outcome.calls, Call.isHandleAppLogo, diag.Errorf]
  | none =>
    cases e2 with
    | some err2 =>
      simp [resourceAppSwaUpdate, hupd, hstatus, Outcome.calls, Call.isHandleAppLogo,
        diag.Errorf]
    | none =>
      cases e3 with
      | some err3 =>
        simp [resourceAppSwaUpdate, hupd, hstatus, hgroups, Outcome.calls,
          Call.isHandleAppLogo, diag.Errorf]
      | none =>
        cases hchange : d.HasChange "logo" with
        | false =>
          simp [resourceAppSwaUpdate, hupd, hstatus, hgroups, hchange, Outcome.calls_after,
            Call.isHandleAppLogo, hread, hcount, List.countP_cons]
        | true =>
          cases e4 with
          | some err4 =>
            simp [resourceAppSwaUpdate, hupd, hstatus, hgroups, hchange, hlogo, Outcome.calls,
              Call.isHandleAppLogo, List.countP_cons, diag.Errorf, ResourceData.GetChange]
          | none =>
            simp [resourceAppSwaUpdate, hupd, hstatus, hgroups, hchange, hlogo,
              Outcome.calls_after, Call.isHandleAppLogo, hread, hcount, List.countP_cons]

/-- Concrete runs for C9 on the scripted service, which counts the requests it
serves, every step succeeding.  With the declared logo differing from the
prior state the run makes six requests, the fourth being the upload; with the
logo unchanged it makes five and no upload. -/
theorem resourceAppSwaUpdate_logo_iff_changed_witness :
    (((resourceAppSwaUpdate scriptedEnv loginApp emptyService).calls.any Call.isHandleAppLogo
        = true ↔
      ((none : Option GoError) = none ∧ (none : Option GoError) = none ∧
        (none : Option GoError) = none ∧ loginApp.HasChange "logo" = true)) ∧
    (resourceAppSwaUpdate scriptedEnv loginApp emptyService).calls.countP Call.isHandleAppLogo
      ≤ 1 ∧
    (loginApp.HasChange "logo" = false →
      (resourceAppSwaUpdate scriptedEnv loginApp emptyService).calls.any Call.isHandleAppLogo
        = false) ∧
    ((resourceAppSwaUpdate scriptedEnv loginApp emptyService).calls.any Call.isHandleAppLogo
        = true →
      ∃ rest, (resourceAppSwaUpdate scriptedEnv loginApp emptyService).calls =
        [Call.UpdateApplication loginApp.Id, Call.setAppStatus "ACTIVE",
         Call.handleAppGroupsAndUsers "0oa1", Call.handleAppLogo "0oa1"] ++ rest)) ∧
    (∃ r, resourceAppSwaUpdate scriptedEnv loginApp emptyService = Outcome.returned r ∧
      r.diags = [] ∧
      r.calls = [Call.UpdateApplication "0oa1", Call.setAppStatus "ACTIVE",
                 Call.handleAppGroupsAndUsers "0oa1", Call.handleAppLogo "0oa1",
                 Call.fetchApp "0oa1", Call.syncGroupsAndUsers "0oa1"] ∧
      r.w.requests = 6) ∧
    (∃ r, resourceAppSwaUpdate scriptedEnv loginAppSameLogo emptyService = Outcome.returned r ∧
      r.diags = [] ∧
      r.calls = [Call.UpdateApplication "0oa1", Call.setAppStatus "ACTIVE",
                 Call.handleAppGroupsAndUsers "0oa1",
                 Call.fetchApp "0oa1", Call.syncGroupsAndUsers "0oa1"] ∧
      r.w.requests = 5 ∧
      r.calls.any Call.isHandleAppLogo = false) :=
  have h := resourceAppSwaUpdate_logo_iff_changed scriptedEnv loginApp emptyService
    none none none none
    { buildAppSwa scriptedEnv loginApp with Id := "0oa1", Status := "ACTIVE" } _ _ _ _
    rfl rfl rfl rfl
  have g := resourceAppSwaUpdate_logo_iff_changed scriptedEnv loginAppSameLogo emptyService
    none none none none
    { buildAppSwa scriptedEnv loginAppSameLogo with Id := "0oa1", Status := "ACTIVE" } _ _ _ _
    rfl rfl rfl rfl
  ⟨⟨h.1, h.2.1, h.2.2.1, h.2.2.2.1⟩,
   ⟨_, (h.2.2.2.2.2.2.2.2.2 rfl rfl rfl (by decide) rfl).trans rfl, rfl, rfl, rfl⟩,
   ⟨_, (g.2.2.2.2.2.2.2.1 rfl rfl rfl (by decide)).trans rfl, rfl, rfl, rfl, rfl⟩⟩

/-! ## Create -/

/-- C3: when the remote create succeeds and `handleAppGroupsAndUsers` then
fails, `resourceAppSwaCreate` returns the single error diagnostic "failed to
handle groups and users for SWA application: " followed by the error, its
only calls are the create and the group and user handling (no logo upload, no
delete), and the stored identifier is the Id of the created application. -/
theorem resourceAppSwaCreate_groups_failure (env : Env W) (d : ResourceData) (w : W)
    (app : SwaApplication) (w1 w2 : W) (err : GoError)
    (hcreate : env.CreateApplication (buildAppSwa env d)
      (decide (d.Get "status" = env.statusActive)) w = (none, app, w1))
    (hgroups : env.handleAppGroupsAndUsers app.Id (d.SetId app.Id) w1 = (some err, w2)) :
    ∃ r, resourceAppSwaCreate env d w = Outcome.returned r ∧
      r.diags = [{ Severity := Severity.Error,
                   Summary := "failed to handle groups and users for SWA application: " ++ err,
                   Detail := "" }] ∧
      (∃ x rest, r.diags = [x] ∧ x.Severity = Severity.Error ∧
        x.Summary = "failed to handle groups and users" ++ rest) ∧
      r.calls = [Call.CreateApplication (decide (d.Get "status" = env.statusActive)),
                 Call.handleAppGroupsAndUsers app.Id] ∧
      r.calls.any Call.isHandleAppLogo = false ∧
      r.calls.any Call.isDeleteApplication = false ∧
      r.d.Id = app.Id ∧
      (∀ k, r.d.Get k = d.Get k) ∧
      r.w = w2 := by
  refine ⟨{ diags := diag.Errorf "failed to handle groups and users for SWA application: " err,
            d := d.SetId app.Id, w := w2,
            calls := [Call.CreateApplication (decide (d.Get "status" = env.statusActive)),
                      Call.handleAppGroupsAndUsers app.Id] },
          ?_, rfl, ?_, rfl, rfl, rfl, rfl, ?_, rfl⟩
  · simp [resourceAppSwaCreate, hcreate, hgroups]
  · refine ⟨_, " for SWA application: " ++ err, rfl, rfl, ?_⟩
    show "failed to handle groups and users for SWA application: " ++ err = _
    rw [← String.append_assoc]
    rfl
  · intro k
    rfl

/-- Concrete run for C3: the group and user handling of the scripted service fails. -/
theorem resourceAppSwaCreate_groups_failure_witness :
    ∃ r, resourceAppSwaCreate scriptedEnv loginApp
        { emptyService with groupsError := some "group missing" } = Outcome.returned r ∧
      r.diags = [{ Severity := Severity.Error,
                   Summary := "failed to handle groups and users for SWA application: "
                     ++ "group missing",
                   Detail := "" }] ∧
      (∃ x rest, r.diags = [x] ∧ x.Severity = Severity.Error ∧
        x.Summary = "failed to handle groups and users" ++ rest) ∧
      r.calls = [Call.CreateApplication
                   (decide (loginApp.Get "status" = scriptedEnv.statusActive)),
                 Call.handleAppGroupsAndUsers "0oa1"] ∧
      r.calls.any Call.isHandleAppLogo = false ∧
      r.calls.any Call.isDeleteApplication = false ∧
      r.d.Id = "0oa1" ∧
      (∀ k, r.d.Get k = loginApp.Get k) ∧
      r.w = { emptyService with
              groupsError := some "group missing"
              remoteApp := some { buildAppSwa scriptedEnv loginApp with
                                  Id := "0oa1", Status := "ACTIVE" }
              requests := 2 } :=
  resourceAppSwaCreate_groups_failure scriptedEnv loginApp
    { emptyService with groupsError := some "group missing" }
    { buildAppSwa scriptedEnv loginApp with Id := "0oa1", Status := "ACTIVE" }
    _ _ "group missing" rfl rfl

/-! ## Delete -/

/-- C8, as the code has it: `resourceAppSwaDelete` always returns, calls
`deleteApplication` exactly once and nothing else, reports an error exactly
when that call returns one, and the diagnostic it reports is the text "failed
to delete SWA application: " followed by the unchanged message of the remote
error. -/
theorem resourceAppSwaDelete_wraps_error (env : Env W) (d : ResourceData) (w : W) :
    ∃ r, resourceAppSwaDelete env d w = Outcome.returned r ∧
      (r.diags.HasError = true ↔ (env.deleteApplication d w).1 ≠ none) ∧
      (r.diags ≠ [] ↔ (env.deleteApplication d w).1 ≠ none) ∧
      r.calls = [Call.deleteApplication d.Id] ∧
      r.calls.countP Call.isDeleteApplication = 1 ∧
      (∀ err, (env.deleteApplication d w).1 = some err →
        r.diags = [{ Severity := Severity.Error,
                     Summary := "failed to delete SWA application: " ++ err,
                     Detail := "" }]) ∧
      r.d = d ∧
      r.w = (env.deleteApplication d w).2 := by
  rcases hdel : env.deleteApplication d w with ⟨e, w1⟩
  cases e with
  | none =>
    refine ⟨{ diags := [], d := d, w := w1, calls := [Call.deleteApplication d.Id] }, ?_, ?_⟩
    · simp [resourceAppSwaDelete, hdel]
    · simp [Diagnostics.HasError, Call.isDeleteApplication]
  | some err =>
    refine ⟨{ diags := diag.Errorf "failed to delete SWA application: " err, d := d, w := w1,
              calls := [Call.deleteApplication d.Id] }, ?_, ?_⟩
    · simp [resourceAppSwaDelete, hdel]
    · simp [Diagnostics.HasError, Call.isDeleteApplication, diag.Errorf]

/-- C8 as stated fails: when the remote delete fails with "not allowed", the
diagnostic of `resourceAppSwaDelete` is "failed to delete SWA application: not
allowed", which is not the remote error verbatim (`diag.FromErr` of it). -/
theorem resourceAppSwaDelete_not_verbatim :
    (scriptedEnv.deleteApplication loginApp
        { emptyService with deleteError := some "not allowed" }).1 = some "not allowed" ∧
    ∃ r, resourceAppSwaDelete scriptedEnv loginApp
        { emptyService with deleteError := some "not allowed" } = Outcome.returned r ∧
      r.diags = [{ Severity := Severity.Error,
                   Summary := "failed to delete SWA application: not allowed",
                   Detail := "" }] ∧
      r.diags ≠ diag.FromErr (some "not allowed") ∧
      ¬ ∃ x, x ∈ r.diags ∧ x.Summary = "not allowed" := by
  refine ⟨rfl, _, rfl, ?_, ?_, ?_⟩
  · decide
  · decide
  · decide

/-! ## Policy data source -/

/-- C4: on a classic org `dataSourcePolicyRead` returns the diagnostics of
`resourceOIEOnlyFeatureError(appSignOnPolicy)`, makes no collaborator call
(so `findPolicyByNameAndType` is not called and the world is as before), and
leaves the state, identifier and status included, as it was. -/
theorem dataSourcePolicyRead_classic_org (env : Env W) (d : ResourceData) (w : W)
    (hclassic : env.isClassicOrg w = true) :
    ∃ r, dataSourcePolicyRead env d w = Outcome.returned r ∧
      r.diags = env.resourceOIEOnlyFeatureError env.appSignOnPolicy ∧
      r.calls = [] ∧
      r.w = w ∧
      r.d = d ∧
      r.d.Id = d.Id ∧
      r.d.Get "status" = d.Get "status" := by
  refine ⟨{ diags := env.resourceOIEOnlyFeatureError env.appSignOnPolicy, d := d, w := w,
            calls := [] }, ?_, rfl, rfl, rfl, rfl, rfl, rfl⟩
  simp [dataSourcePolicyRead, hclassic]

/-- Concrete run for C4: the scripted service belongs to a classic org. -/
theorem dataSourcePolicyRead_classic_org_witness :
    ∃ r, dataSourcePolicyRead scriptedEnv loginApp { emptyService with classic := true }
        = Outcome.returned r ∧
      r.diags = scriptedEnv.resourceOIEOnlyFeatureError scriptedEnv.appSignOnPolicy ∧
      r.calls = [] ∧
      r.w = { emptyService with classic := true } ∧
      r.d = loginApp ∧
      r.d.Id = loginApp.Id ∧
      r.d.Get "status" = loginApp.Get "status" :=
  dataSourcePolicyRead_classic_org scriptedEnv loginApp { emptyService with classic := true } rfl

/-- C10: on an org that is not classic, with `findPolicyByNameAndType` called
on the name and type attributes: if it returns a policy and no error,
`dataSourcePolicyRead` returns nil diagnostics, the stored identifier is the
policy's Id, the status attribute is the policy's Status and every other
attribute and level of the state is as before; if it returns an error, the
diagnostics are that error (`diag.FromErr`) and the state is as before.  The
lookup is the only call in both cases. -/
theorem dataSourcePolicyRead_lookup (env : Env W) (d : ResourceData) (w : W)
    (found : Option Policy) (oerr : Option GoError) (w1 : W)
    (hclassic : env.isClassicOrg w = false)
    (hfind : env.findPolicyByNameAndType w (d.Get "name") (d.Get "type") = (found, oerr, w1)) :
    (∀ policy, found = some policy → oerr = none →
      ∃ r, dataSourcePolicyRead env d w = Outcome.returned r ∧
        r.diags = [] ∧
        r.d.Id = policy.Id ∧
        r.d.Get "status" = policy.Status ∧
        (∀ k, k ≠ "status" → r.d.Get k = d.Get k) ∧
        r.d.state = d.state ∧ r.d.diff = d.diff ∧
        r.calls = [Call.findPolicyByNameAndType (d.Get "name") (d.Get "type")] ∧
        r.w = w1) ∧
    (∀ err, oerr = some err →
      ∃ r, dataSourcePolicyRead env d w = Outcome.returned r ∧
        r.diags = [{ Severity := Severity.Error, Summary := err, Detail := "" }] ∧
        r.diags.HasError = true ∧
        r.d = d ∧
        r.calls = [Call.findPolicyByNameAndType (d.Get "name") (d.Get "type")] ∧
        r.w = w1) := by
  constructor
  · intro policy hfound herr
    subst hfound herr
    refine ⟨{ diags := [], d := (d.SetId policy.Id).Set "status" policy.Status, w := w1,
              calls := [Call.findPolicyByNameAndType (d.Get "name") (d.Get "type")] },
            ?_, rfl, rfl, ?_, ?_, rfl, rfl, rfl, rfl⟩
    · simp [dataSourcePolicyRead, hclassic, hfind]
    · simp
    · intro k hk
      simp [hk]
  · intro err herr
    subst herr
    refine ⟨{ diags := diag.FromErr (some err), d := d, w := w1,
              calls := [Call.findPolicyByNameAndType (d.Get "name") (d.Get "type")] },
            ?_, rfl, rfl, rfl, rfl, rfl⟩
    simp [dataSourcePolicyRead, hclassic, hfind]

/-- Concrete run for C10: the scripted service holds exactly one policy of the
requested name and type. -/
theorem dataSourcePolicyRead_lookup_witness :
    ∃ r, dataSourcePolicyRead scriptedEnv policyQuery policyService = Outcome.returned r ∧
      r.diags = [] ∧
      r.d.Id = "00p1" ∧
      r.d.Get "status" = "ACTIVE" ∧
      (∀ k, k ≠ "status" → r.d.Get k = policyQuery.Get k) ∧
      r.d.state = policyQuery.state ∧ r.d.diff = policyQuery.diff ∧
      r.calls = [Call.findPolicyByNameAndType "Default Policy" "ACCESS_POLICY"] ∧
      r.w = policyService.bump :=
  (dataSourcePolicyRead_lookup scriptedEnv policyQuery policyService (some defaultPolicy) none
    policyService.bump rfl rfl).1 defaultPolicy rfl rfl

/-! ## Attribute mapper -/

/-- C6: the payload of `buildAppSwa` has Name equal to the preconfigured_app
attribute and SignOnMode "AUTO_LOGIN" when that attribute is non-empty, and
the Name and SignOnMode of `okta.NewSwaApplication()` when it is empty. -/
theorem buildAppSwa_preconfigured_app (env : Env W) (d : ResourceData) :
    (d.Get "preconfigured_app" ≠ "" →
      (buildAppSwa env d).Name = d.Get "preconfigured_app" ∧
      (buildAppSwa env d).SignOnMode = "AUTO_LOGIN") ∧
    (d.Get "preconfigured_app" = "" →
      (buildAppSwa env d).Name = env.NewSwaApplication.Name ∧
      (buildAppSwa env d).SignOnMode = env.NewSwaApplication.SignOnMode) := by
  constructor
  · intro h
    simp [buildAppSwa, h]
  · intro h
    simp [buildAppSwa, h]

/-- C7: the Status of the payload of `buildAppSwa` is the Status of
`okta.NewSwaApplication()`; and for two states that agree on every attribute
other than status, on which the four helper builders (notes, visibility,
accessibility, username template) return the same records, the payloads of
`buildAppSwa` are equal. -/
theorem buildAppSwa_ignores_status (env : Env W) (d1 d2 : ResourceData)
    (hagree : ∀ k, k ≠ "status" → d1.Get k = d2.Get k)
    (hnotes : env.buildAppNotes d1 = env.buildAppNotes d2)
    (hvis : env.buildAppVisibility d1 = env.buildAppVisibility d2)
    (hacc : env.buildAppAccessibility d1 = env.buildAppAccessibility d2)
    (htemplate : env.buildUserNameTemplate d1 = env.buildUserNameTemplate d2) :
    (buildAppSwa env d1).Status = env.NewSwaApplication.Status ∧
    (buildAppSwa env d2).Status = env.NewSwaApplication.Status ∧
    buildAppSwa env d1 = buildAppSwa env d2 := by
  have hstatus : ∀ d, (buildAppSwa env d).Status = env.NewSwaApplication.Status := by
    intro d
    unfold buildAppSwa
    simp only []
    split <;> rfl
  refine ⟨hstatus d1, hstatus d2, ?_⟩
  unfold buildAppSwa
  simp only [hnotes, hvis, hacc, htemplate]
  rw [hagree "label" (by decide), hagree "preconfigured_app" (by decide),
    hagree "button_field" (by decide), hagree "username_field" (by decide),
    hagree "password_field" (by decide), hagree "url" (by decide),
    hagree "url_regex" (by decide), hagree "redirect_url" (by decide),
    hagree "checkbox" (by decide)]

/-- Concrete run for C7: the same declared application, active and inactive. -/
theorem buildAppSwa_ignores_status_witness :
    loginApp.Get "status" ≠ loginAppInactive.Get "status" ∧
    (buildAppSwa scriptedEnv loginApp).Status = scriptedEnv.NewSwaApplication.Status ∧
    (buildAppSwa scriptedEnv loginAppInactive).Status = scriptedEnv.NewSwaApplication.Status ∧
    buildAppSwa scriptedEnv loginApp = buildAppSwa scriptedEnv loginAppInactive :=
  ⟨by decide,
   buildAppSwa_ignores_status scriptedEnv loginApp loginAppInactive
    (by
      intro k hk
      simp [ResourceData.Get, loginAppInactive, loginApp, hk])
    rfl rfl rfl rfl⟩

/-- C5: if the fetched application is the payload `buildAppSwa(s)` with a
non-empty Id put in, the field mapping of `resourceAppSwaRead` succeeds and
leaves each of button_field, password_field, username_field, url, url_regex,
checkbox and redirect_url with the value it has in `s`; and when neither
`appRead` nor `syncGroupsAndUsers` write those seven attributes and the
username template of the payload is not nil, the whole read returns with the
same seven values. -/
theorem resourceAppSwaRead_buildAppSwa_roundtrip (env : Env W) (s d : ResourceData) (w w1 : W)
    (id : String) (hid : id ≠ "")
    (hfetch : env.fetchApp d w env.NewSwaApplication
      = (none, { buildAppSwa env s with Id := id }, w1)) :
    (∃ d1, readSwaSettingsFields d { buildAppSwa env s with Id := id } = some d1 ∧
      d1.Get "button_field" = s.Get "button_field" ∧
      d1.Get "password_field" = s.Get "password_field" ∧
      d1.Get "username_field" = s.Get "username_field" ∧
      d1.Get "url" = s.Get "url" ∧
      d1.Get "url_regex" = s.Get "url_regex" ∧
      d1.Get "checkbox" = s.Get "checkbox" ∧
      d1.Get "redirect_url" = s.Get "redirect_url") ∧
    (env.buildUserNameTemplate s ≠ none →
      (∀ d0 name status signOn label accy vis notes k, k ∈ swaFields →
        (env.appRead d0 name status signOn label accy vis notes).Get k = d0.Get k) →
      (∀ i d0 w0 k, k ∈ swaFields → (env.syncGroupsAndUsers i d0 w0).2.1.Get k = d0.Get k) →
      ∃ r, resourceAppSwaRead env d w = Outcome.returned r ∧
        ∀ k, k ∈ swaFields → r.d.Get k = s.Get k) := by
  have hsettings : (buildAppSwa env s).Settings = some
      { App := some
          { ButtonField := s.Get "button_field"
            UsernameField := s.Get "username_field"
            PasswordField := s.Get "password_field"
            Url := s.Get "url"
            LoginUrlRegex := s.Get "url_regex"
            RedirectUrl := s.Get "redirect_url"
            Checkbox := s.Get "checkbox" }
        Notes := env.buildAppNotes s } := by
    unfold buildAppSwa
    simp only []
  have hcreds : (buildAppSwa env s).Credentials
      = some { UserNameTemplate := env.buildUserNameTemplate s } := by
    unfold buildAppSwa
    simp only []
  constructor
  · simp [readSwaSettingsFields, hsettings, ResourceData.Get, ResourceData.Set]
  · intro htemplate happRead hsync
    obtain ⟨t, ht⟩ := Option.ne_none_iff_exists'.mp htemplate
    rcases hs : env.syncGroupsAndUsers id
        (env.appRead
          ((((((((((((d.Set "button_field" (s.Get "button_field")).Set "password_field"
            (s.Get "password_field")).Set "username_field" (s.Get "username_field")).Set "url"
            (s.Get "url")).Set "url_regex" (s.Get "url_regex")).Set "checkbox"
            (s.Get "checkbox")).Set "redirect_url" (s.Get "redirect_url")).Set
            "user_name_template" t.Template).Set "user_name_template_type" t.Type_).Set
            "user_name_template_suffix" t.Suffix).Set "user_name_template_push_status"
            t.PushStatus).Set "logo_url"
            (env.linksValue (buildAppSwa env s).Links "logo" "href"))
          (buildAppSwa env s).Name (buildAppSwa env s).Status (buildAppSwa env s).SignOnMode
          (buildAppSwa env s).Label (buildAppSwa env s).Accessibility
          (buildAppSwa env s).Visibility (env.buildAppNotes s)) w1 with ⟨e, d5, w2⟩
    have hframe : ∀ k, k ∈ swaFields → d5.Get k = s.Get k := by
      intro k hk
      have h1 := congrArg (fun x => x.2.1.Get k) hs
      simp only [] at h1
      rw [hsync _ _ _ k hk, happRead _ _ _ _ _ _ _ _ k hk] at h1
      rw [← h1]
      simp only [swaFields, List.mem_cons, List.mem_singleton, List.not_mem_nil, or_false] at hk
      rcases hk with h | h | h | h | h | h | h <;> subst h <;>
        simp [ResourceData.Get, ResourceData.Set]
    cases e with
    | none =>
      refine ⟨{ diags := [], d := d5, w := w2,
                calls := [Call.fetchApp d.Id, Call.syncGroupsAndUsers id] }, ?_, hframe⟩
      simp [resourceAppSwaRead, hfetch, hid, readSwaSettingsFields, readUserNameTemplateFields,
        hsettings, hcreds, ht, hs]
    | some err =>
      refine ⟨{ diags := diag.Errorf "failed to sync groups and users for SWA application: " err,
                d := d5, w := w2,
                calls := [Call.fetchApp d.Id, Call.syncGroupsAndUsers id] }, ?_, hframe⟩
      simp [resourceAppSwaRead, hfetch, hid, readSwaSettingsFields, readUserNameTemplateFields,
        hsettings, hcreds, ht, hs]

/-- Concrete run for C5: the scripted service answers the read of `loginApp`
with the payload built from `loginApp`. -/
theorem resourceAppSwaRead_buildAppSwa_roundtrip_witness :
    (∃ d1, readSwaSettingsFields loginApp
        { buildAppSwa scriptedEnv loginApp with Id := "0oa1" } = some d1 ∧
      d1.Get "button_field" = loginApp.Get "button_field" ∧
      d1.Get "password_field" = loginApp.Get "password_field" ∧
      d1.Get "username_field" = loginApp.Get "username_field" ∧
      d1.Get "url" = loginApp.Get "url" ∧
      d1.Get "url_regex" = loginApp.Get "url_regex" ∧
      d1.Get "checkbox" = loginApp.Get "checkbox" ∧
      d1.Get "redirect_url" = loginApp.Get "redirect_url") ∧
    (∃ r, resourceAppSwaRead scriptedEnv loginApp storedService = Outcome.returned r ∧
      ∀ k, k ∈ swaFields → r.d.Get k = loginApp.Get k) :=
  have h := resourceAppSwaRead_buildAppSwa_roundtrip scriptedEnv loginApp loginApp storedService
    storedService.bump "0oa1" (by decide) rfl
  ⟨h.1, h.2 (by simp [scriptedEnv])
    (by
      intro d0 name status signOn label accy vis notes k hk
      simp only [swaFields, List.mem_cons, List.mem_singleton, List.not_mem_nil, or_false] at hk
      rcases hk with h | h | h | h | h | h | h <;> subst h <;>
        simp [scriptedEnv, ResourceData.Get, ResourceData.Set])
    (by
      intro i d0 w0 k _
      rfl)⟩

end Okta
